import Mathlib

/-!
Verification development for the go-unit package: a shallow embedding of
the quantity/unit conversion model and the format-polymorphic JSON
serialization subsystem, with theorems settling the specification claims.

Modelling conventions:
* Go `float64` values are idealized as exact rationals (`ℚ`); every numeric
  constant is taken from the source text.  Go's untyped-constant arithmetic
  is reproduced exactly (in particular `-32*5/9` is integer constant
  division in Go, yielding `-17`).
* Go strings are `List Char`; the case functions model `unicode` on the
  ASCII range, which covers every string the package manipulates.
* A Go `panic` and a returned `error` are both modelled as `Except.error`
  with a distinguishing `GoError` constructor.
* JSON documents are modelled structurally (`Json` below); Go's
  `encoding/json` semantics for the struct shapes used by the package are
  reproduced (missing field = zero value, `null` = no-op, wrong type =
  error, duplicate key = last wins, struct fields matched
  case-insensitively, unknown fields ignored).
-/

namespace UnitSys

/-- Go strings, modelled as lists of characters. -/
abbrev Str := List Char

/-- `unicode.IsUpper` restricted to the ASCII range used by the package. -/
def goIsUpper (c : Char) : Bool := 'A' ≤ c && c ≤ 'Z'

/-- `unicode.ToLower` restricted to the ASCII range used by the package. -/
def goToLowerChar (c : Char) : Char :=
  if goIsUpper c then Char.ofNat (c.toNat + 32) else c

/-- `strings.ToLower`. -/
def goToLower (s : Str) : Str := s.map goToLowerChar

/-- `strings.EqualFold` (simple case folding, adequate for ASCII keys). -/
def equalFold (a b : Str) : Bool := goToLower a == goToLower b

/-- `strings.ReplaceAll s " " "_"`. -/
def replaceSpaces (s : Str) : Str := s.map (fun c => if c = ' ' then '_' else c)

/-- Whether the Go snake-case builder must emit an underscore: the builder is
nonempty and its last written byte is not an underscore. -/
def needsUnderscore (racc : Str) : Bool :=
  match racc with
  | [] => false
  | h :: _ => h != '_'

/-- One step of the `toSnakeCase` loop; `racc` is the builder content in
reverse order. -/
def snakeStep (racc : Str) (c : Char) : Str :=
  if goIsUpper c then
    goToLowerChar c :: (if needsUnderscore racc then '_' :: racc else racc)
  else if c = '_' then
    (if needsUnderscore racc then '_' :: racc else racc)
  else
    c :: racc

/-- `toSnakeCase` from the serialization code: replace spaces with
underscores, insert an underscore before each internal uppercase letter not
already preceded by one, lowercase everything, collapse repeated
underscores. -/
def toSnakeCase (s : Str) : Str :=
  ((replaceSpaces s).foldl snakeStep []).reverse

/-- `unitKey`: `strings.ToLower(dimension) + "_" + toSnakeCase(name)`. -/
def unitKey (dimension name : Str) : Str :=
  goToLower dimension ++ '_' :: toSnakeCase name

/-- Split a string at its first underscore, returning the parts before and
after it; `none` when there is no underscore (`strings.Index` = -1). -/
def splitFirstUnderscore : Str → Option (Str × Str)
  | [] => none
  | c :: t =>
    if c = '_' then some ([], t)
    else (splitFirstUnderscore t).map (fun p => (c :: p.1, p.2))

/-- `parseUnitKey`: split `"dimension_unit_name"` on the first underscore
into dimension and unit name; a key without an underscore is all
dimension. -/
def parseUnitKey (key : Str) : Str × Str :=
  match splitFirstUnderscore key with
  | none => (key, [])
  | some p => p

/-- Structural model of a JSON document. -/
inductive Json where
  | num (v : ℚ)
  | str (s : Str)
  | jbool (b : Bool)
  | null
  | obj (fields : List (Str × Json))
  | arr (elems : List Json)

/-- Go object-field lookup: decoding a JSON object processes fields in
order with later duplicates overwriting earlier ones, so lookup takes the
last binding. -/
def lookupLast (fields : List (Str × Json)) (k : Str) : Option Json :=
  (fields.reverse.find? (fun p => p.1 == k)).map Prod.snd

/-- Go struct-field lookup: `encoding/json` matches an incoming object
key to a struct field preferring an exact match but also accepting a
case-insensitive one, and processes keys in order with later matches
overwriting earlier ones — so the decoded field is the last binding whose
key case-folds to the field name (our struct shapes have no two field
names differing only by case, so fold-equality is exactly Go's rule). -/
def lookupField (fields : List (Str × Json)) (k : Str) : Option Json :=
  (fields.reverse.find? (fun p => equalFold p.1 k)).map Prod.snd

/-- `json.Unmarshal` into a `string` variable: succeeds on a JSON string
and (as a no-op leaving the zero value) on `null`. -/
def asGoString : Json → Option Str
  | .str s => some s
  | .null => some []
  | _ => none

/-- `json.Unmarshal` into a `map[string]json.RawMessage`: requires a JSON
object (`null` leaves the nil map). -/
def asGoObj : Json → Option (List (Str × Json))
  | .obj fs => some fs
  | .null => some []
  | _ => none

/-- Decode a `float64` struct field: missing or `null` yields the zero
value, a number yields its value, anything else is a decode error; the
field binding uses Go's case-insensitive, last-wins matching. -/
def decNumField (fields : List (Str × Json)) (k : Str) : Option ℚ :=
  match lookupField fields k with
  | none => some 0
  | some .null => some 0
  | some (.num v) => some v
  | some _ => none

/-- Decode a `string` struct field with Go's zero-value semantics and
case-insensitive, last-wins field matching. -/
def decStrField (fields : List (Str × Json)) (k : Str) : Option Str :=
  match lookupField fields k with
  | none => some []
  | some .null => some []
  | some (.str s) => some s
  | some _ => none

/-- Decode a nested struct field: missing or `null` decodes the zero struct
(an empty object), a JSON object recurses, anything else errors; the
field binding uses Go's case-insensitive, last-wins matching. -/
def decObjField (fields : List (Str × Json)) (k : Str) :
    Option (List (Str × Json)) :=
  match lookupField fields k with
  | none => some []
  | some .null => some []
  | some (.obj fs) => some fs
  | some _ => none

/-- Failure conditions of the package; `Except.error` with one of these
models both returned `error` values and panics. -/
inductive GoError where
  | jsonType
  | missingUnit
  | unknownFormat
  | unitInfo
  | wrongDimension
  | unknownUnit
  | unknownDimension
  | dimensionMismatch
  | fuelZero
deriving DecidableEq

deriving instance DecidableEq for Except

/-- The three wire formats. -/
inductive Format where
  | full
  | compact
  | minimal
deriving DecidableEq

/-- Decoded `MeasurementJSON` (new full format): value plus the nested
unit's name, symbol and dimension. -/
def decMeasurementFull (j : Json) : Option (ℚ × Str × Str × Str) :=
  match j with
  | .obj fs => do
    let v ← decNumField fs "value".data
    let ufs ← decObjField fs "unit".data
    let n ← decStrField ufs "name".data
    let s ← decStrField ufs "symbol".data
    let d ← decStrField ufs "dimension".data
    some (v, n, s, d)
  | .null => some (0, [], [], [])
  | _ => none

/-- Decoded `legacyMeasurementJSON`: value, nested unit name/symbol, and a
top-level dimension. -/
def decMeasurementLegacy (j : Json) : Option (ℚ × Str × Str × Str) :=
  match j with
  | .obj fs => do
    let v ← decNumField fs "value".data
    let ufs ← decObjField fs "unit".data
    let n ← decStrField ufs "name".data
    let s ← decStrField ufs "symbol".data
    let d ← decStrField fs "dimension".data
    some (v, n, s, d)
  | .null => some (0, [], [], [])
  | _ => none

/-- Decoded `MeasurementCompactJSON`: value plus the nested unit's key and
symbol. -/
def decMeasurementCompact (j : Json) : Option (ℚ × Str × Str) :=
  match j with
  | .obj fs => do
    let v ← decNumField fs "value".data
    let ufs ← decObjField fs "unit".data
    let k ← decStrField ufs "key".data
    let s ← decStrField ufs "symbol".data
    some (v, k, s)
  | .null => some (0, [], [])
  | _ => none

/-- Decoded `MeasurementMinimalJSON`: value plus a string unit. -/
def decMeasurementMinimal (j : Json) : Option (ℚ × Str) :=
  match j with
  | .obj fs => do
    let v ← decNumField fs "value".data
    let u ← decStrField fs "unit".data
    some (v, u)
  | .null => some (0, [])
  | _ => none

/-- Decoded `legacyCompactJSON`: value, string unit, top-level symbol. -/
def decLegacyCompact (j : Json) : Option (ℚ × Str × Str) :=
  match j with
  | .obj fs => do
    let v ← decNumField fs "value".data
    let u ← decStrField fs "unit".data
    let s ← decStrField fs "symbol".data
    some (v, u, s)
  | .null => some (0, [], [])
  | _ => none

/-- Look up a field and try to decode it as a Go string
(`json.Unmarshal(raw, &s) == nil`). -/
def strFieldOf (fields : List (Str × Json)) (k : Str) : Option Str :=
  (lookupLast fields k).bind asGoString

/-- `detectFormat`: determine which JSON format is used and extract the
dimension tag. -/
def detectFormat (j : Json) : Except GoError (Format × Str) :=
  match asGoObj j with
  | none => .error .jsonType
  | some raw =>
    match lookupLast raw "unit".data with
    | none => .error .missingUnit
    | some unitRaw =>
      match asGoString unitRaw with
      | some unitStr =>
        -- a string unit is minimal format (legacy compact, with a
        -- top-level symbol, is treated identically)
        if (lookupLast raw "symbol".data).isSome then
          .ok (.minimal, (parseUnitKey unitStr).1)
        else
          .ok (.minimal, (parseUnitKey unitStr).1)
      | none =>
        match asGoObj unitRaw with
        | none => .error .jsonType
        | some unitObj =>
          match strFieldOf unitObj "key".data with
          | some keyStr => .ok (.compact, (parseUnitKey keyStr).1)
          | none =>
            match strFieldOf unitObj "dimension".data with
            | some dimStr => .ok (.full, dimStr)
            | none =>
              match strFieldOf raw "dimension".data with
              | some dimStr => .ok (.full, dimStr)
              | none => .error .unknownFormat

/-- `unmarshalValue`: extract the numeric value from any format. -/
def unmarshalValue (j : Json) : Except GoError ℚ :=
  match j with
  | .obj fs =>
    match decNumField fs "value".data with
    | some v => .ok v
    | none => .error .jsonType
  | .null => .ok 0
  | _ => .error .jsonType

/-- `unmarshalUnitInfo`: extract `(symbol, name, key)` from any format. -/
def unmarshalUnitInfo (j : Json) : Except GoError (Str × Str × Str) :=
  match detectFormat j with
  | .error e => .error e
  | .ok (f, _) =>
    match f with
    | .full =>
      match decMeasurementFull j with
      | some (_, n, s, _) =>
        if s ≠ [] then .ok (s, n, [])
        else
          match decMeasurementLegacy j with
          | some (_, n2, s2, _) => .ok (s2, n2, [])
          | none => .error .unitInfo
      | none =>
        match decMeasurementLegacy j with
        | some (_, n2, s2, _) => .ok (s2, n2, [])
        | none => .error .unitInfo
    | .compact =>
      match decMeasurementCompact j with
      | some (_, k, s) => .ok (s, [], k)
      | none => .error .unitInfo
    | .minimal =>
      match decMeasurementMinimal j with
      | some (_, u) =>
        match decLegacyCompact j with
        | some (_, _, sym) =>
          if sym ≠ [] then .ok (sym, [], u) else .ok ([], [], u)
        | none => .ok ([], [], u)
      | none => .error .unitInfo

/-- `parsedMeasurement`: all data extracted from a JSON document. -/
structure ParsedMeasurement where
  value : ℚ
  symbol : Str
  name : Str
  key : Str
  dimension : Str
  format : Format
deriving DecidableEq

/-- `parseMeasurement`: run the detector, extract the value, and extract
unit info (whose error, if any, is discarded leaving zero values). -/
def parseMeasurement (j : Json) : Except GoError ParsedMeasurement :=
  match detectFormat j with
  | .error e => .error e
  | .ok (f, d) =>
    match unmarshalValue j with
    | .error e => .error e
    | .ok v =>
      let info := match unmarshalUnitInfo j with
        | .ok x => x
        | .error _ => ([], [], [])
      .ok ⟨v, info.1, info.2.1, info.2.2, d, f⟩

/-- The key-match test used by the unmarshalers' switches: an empty key
never matches; otherwise the key's unit-name part (after the first
underscore) must match `unitName` case-insensitively. -/
def matchKey (key unitName : Str) : Bool :=
  if key = [] then false
  else equalFold (parseUnitKey key).2 unitName

/-- `parsedMeasurement.matchUnitByKey`. -/
def matchUnitByKey (p : ParsedMeasurement) (unitName : Str) : Bool :=
  matchKey p.key unitName

/-- A concrete unit value.  `BaseUnit`'s fields, plus `fuelMethods`, which
records whether the value is a `FuelEfficiencyUnit` (the one wrapper type
that overrides the conversion methods with the reciprocal rule). -/
structure GoUnit where
  dimension : Str
  symbol : Str
  name : Str
  coefficient : ℚ
  offset : ℚ
  isBase : Bool
  fuelMethods : Bool
deriving DecidableEq

/-- The symbol that triggers the reciprocal fuel-efficiency conversion. -/
def l100Symbol : Str := "L/100km".data

/-- `BaseUnit.ConvertToBaseUnit`: identity for the base unit, affine when
an offset is present, otherwise a plain multiplication. -/
def baseConvertToBaseUnit (u : GoUnit) (value : ℚ) : ℚ :=
  if u.isBase then value
  else if u.offset ≠ 0 then value * u.coefficient + u.offset
  else value * u.coefficient

/-- `BaseUnit.ConvertFromBaseUnit`. -/
def baseConvertFromBaseUnit (u : GoUnit) (value : ℚ) : ℚ :=
  if u.isBase then value
  else if u.offset ≠ 0 then (value - u.offset) / u.coefficient
  else value / u.coefficient

/-- Dynamic `ConvertToBaseUnit`: `FuelEfficiencyUnit` overrides the default
with `100/value` for the `L/100km` symbol, panicking on zero. -/
def convertToBaseUnit (u : GoUnit) (value : ℚ) : Except GoError ℚ :=
  if u.fuelMethods ∧ u.symbol = l100Symbol then
    if value = 0 then .error .fuelZero else .ok (100 / value)
  else .ok (baseConvertToBaseUnit u value)

/-- Dynamic `ConvertFromBaseUnit`, with the reciprocal override. -/
def convertFromBaseUnit (u : GoUnit) (value : ℚ) : Except GoError ℚ :=
  if u.fuelMethods ∧ u.symbol = l100Symbol then
    if value = 0 then .error .fuelZero else .ok (100 / value)
  else .ok (baseConvertFromBaseUnit u value)

/-- `BaseUnit.Equals`: same dimension and same symbol. -/
def goEquals (u o : GoUnit) : Bool :=
  u.dimension == o.dimension && u.symbol == o.symbol

/-- `Quantity[T]`: a value with an associated unit. -/
structure GoQuantity where
  value : ℚ
  unit : GoUnit
deriving DecidableEq

namespace Quantity

/-- `Quantity.Equal`: false across dimensions, otherwise compare
base-normalized values with absolute tolerance `1e-9`. -/
def equal (m other : GoQuantity) : Except GoError Bool :=
  if m.unit.dimension ≠ other.unit.dimension then .ok false
  else
    match convertToBaseUnit m.unit m.value with
    | .error e => .error e
    | .ok a =>
      match convertToBaseUnit other.unit other.value with
      | .error e => .error e
      | .ok b => .ok (decide (|a - b| < 1 / 1000000000))

/-- `Quantity.ConvertTo`: copy for an equal unit, panic across dimensions,
otherwise convert through the base unit. -/
def convertTo (m : GoQuantity) (u : GoUnit) : Except GoError GoQuantity :=
  if goEquals m.unit u then .ok ⟨m.value, u⟩
  else if m.unit.dimension ≠ u.dimension then .error .dimensionMismatch
  else
    match convertToBaseUnit m.unit m.value with
    | .error e => .error e
    | .ok b =>
      match convertFromBaseUnit u b with
      | .error e => .error e
      | .ok t => .ok ⟨t, u⟩

/-- `Quantity.Add`: panic across dimensions, otherwise convert the right
operand to the left operand's unit and add; the result keeps the left
unit. -/
def add (m other : GoQuantity) : Except GoError GoQuantity :=
  if m.unit.dimension ≠ other.unit.dimension then .error .dimensionMismatch
  else
    match convertTo other m.unit with
    | .error e => .error e
    | .ok oc => .ok ⟨m.value + oc.value, m.unit⟩

/-- `Quantity.Subtract`. -/
def sub (m other : GoQuantity) : Except GoError GoQuantity :=
  if m.unit.dimension ≠ other.unit.dimension then .error .dimensionMismatch
  else
    match convertTo other m.unit with
    | .error e => .error e
    | .ok oc => .ok ⟨m.value - oc.value, m.unit⟩

end Quantity

/-- `NewGeneralUnit`: a custom general unit with coefficient 1, offset 0. -/
def NewGeneralUnit (symbol name : Str) : GoUnit :=
  ⟨"general".data, symbol, name, 1, 0, false, false⟩

def Temperature.Celsius : GoUnit :=
  ⟨"temperature".data, "°C".data, "Celsius".data, 1, 0, true, false⟩

/-- Fahrenheit as constructed by the source: the coefficient is `5.0/9.0`
and the offset is the Go constant expression `-32*5/9`, which is untyped
integer constant division and therefore evaluates to `-17`, not `-160/9`
(the package's own tests record the resulting behavior, e.g. 25 °C
converting to 75.6 °F). -/
def Temperature.Fahrenheit : GoUnit :=
  ⟨"temperature".data, "°F".data, "Fahrenheit".data, 5 / 9, -17, false, false⟩

def Temperature.Kelvin : GoUnit :=
  ⟨"temperature".data, "K".data, "Kelvin".data, 1, -273.15, false, false⟩

def Pressure.Pascal : GoUnit :=
  ⟨"pressure".data, "Pa".data, "Pascal".data, 1, 0, true, false⟩

def Pressure.Kilopascal : GoUnit :=
  ⟨"pressure".data, "kPa".data, "Kilopascal".data, 1000, 0, false, false⟩

def Pressure.Bar : GoUnit :=
  ⟨"pressure".data, "bar".data, "Bar".data, 100000, 0, false, false⟩

def Pressure.PSI : GoUnit :=
  ⟨"pressure".data, "psi".data, "Pounds per Square Inch".data, 6894.76, 0, false, false⟩

def Pressure.InchH2O : GoUnit :=
  ⟨"pressure".data, "inH₂O".data, "Inches of Water Column".data, 249.089, 0, false, false⟩

def FlowRate.CubicMetersPerHour : GoUnit :=
  ⟨"flowrate".data, "m³/h".data, "Cubic Meters per Hour".data, 1, 0, true, false⟩

def FlowRate.LitersPerSecond : GoUnit :=
  ⟨"flowrate".data, "L/s".data, "Liters per Second".data, 3.6, 0, false, false⟩

def FlowRate.CFM : GoUnit :=
  ⟨"flowrate".data, "CFM".data, "Cubic Feet per Minute".data, 1.699, 0, false, false⟩

def Power.Watt : GoUnit :=
  ⟨"power".data, "W".data, "Watt".data, 1, 0, true, false⟩

def Power.Kilowatt : GoUnit :=
  ⟨"power".data, "kW".data, "Kilowatt".data, 1000, 0, false, false⟩

def Power.BTUPerHour : GoUnit :=
  ⟨"power".data, "BTU/h".data, "British Thermal Unit per Hour".data, 0.29307107, 0, false, false⟩

def Energy.Joule : GoUnit :=
  ⟨"energy".data, "J".data, "Joule".data, 1, 0, true, false⟩

def Energy.KilowattHour : GoUnit :=
  ⟨"energy".data, "kWh".data, "Kilowatt-hour".data, 3600000, 0, false, false⟩

def Energy.BTU : GoUnit :=
  ⟨"energy".data, "BTU".data, "British Thermal Unit".data, 1055.06, 0, false, false⟩

def Length.Meter : GoUnit :=
  ⟨"length".data, "m".data, "Meter".data, 1, 0, true, false⟩

def Length.Kilometer : GoUnit :=
  ⟨"length".data, "km".data, "Kilometer".data, 1000, 0, false, false⟩

def Length.Centimeter : GoUnit :=
  ⟨"length".data, "cm".data, "Centimeter".data, 0.01, 0, false, false⟩

def Length.Millimeter : GoUnit :=
  ⟨"length".data, "mm".data, "Millimeter".data, 0.001, 0, false, false⟩

def Length.Micrometer : GoUnit :=
  ⟨"length".data, "µm".data, "Micrometer".data, 0.000001, 0, false, false⟩

def Length.Nanometer : GoUnit :=
  ⟨"length".data, "nm".data, "Nanometer".data, 0.000000001, 0, false, false⟩

def Length.Inch : GoUnit :=
  ⟨"length".data, "in".data, "Inch".data, 0.0254, 0, false, false⟩

def Length.Foot : GoUnit :=
  ⟨"length".data, "ft".data, "Foot".data, 0.3048, 0, false, false⟩

def Length.Yard : GoUnit :=
  ⟨"length".data, "yd".data, "Yard".data, 0.9144, 0, false, false⟩

def Length.Mile : GoUnit :=
  ⟨"length".data, "mi".data, "Mile".data, 1609.34, 0, false, false⟩

def Mass.Kilogram : GoUnit :=
  ⟨"mass".data, "kg".data, "Kilogram".data, 1, 0, true, false⟩

def Mass.Gram : GoUnit :=
  ⟨"mass".data, "g".data, "Gram".data, 0.001, 0, false, false⟩

def Mass.Milligram : GoUnit :=
  ⟨"mass".data, "mg".data, "Milligram".data, 0.000001, 0, false, false⟩

def Mass.Microgram : GoUnit :=
  ⟨"mass".data, "µg".data, "Microgram".data, 0.000000001, 0, false, false⟩

def Mass.Pound : GoUnit :=
  ⟨"mass".data, "lb".data, "Pound".data, 0.45359237, 0, false, false⟩

def Mass.Ounce : GoUnit :=
  ⟨"mass".data, "oz".data, "Ounce".data, 0.028349523125, 0, false, false⟩

def Mass.Stone : GoUnit :=
  ⟨"mass".data, "st".data, "Stone".data, 6.35029318, 0, false, false⟩

def Mass.MetricTon : GoUnit :=
  ⟨"mass".data, "t".data, "Metric Ton".data, 1000, 0, false, false⟩

def Mass.Ton : GoUnit :=
  ⟨"mass".data, "ton".data, "Ton".data, 907.18474, 0, false, false⟩

def Duration.Second : GoUnit :=
  ⟨"duration".data, "s".data, "Second".data, 1, 0, true, false⟩

def Duration.Minute : GoUnit :=
  ⟨"duration".data, "min".data, "Minute".data, 60, 0, false, false⟩

def Duration.Hour : GoUnit :=
  ⟨"duration".data, "h".data, "Hour".data, 3600, 0, false, false⟩

def Duration.Day : GoUnit :=
  ⟨"duration".data, "d".data, "Day".data, 86400, 0, false, false⟩

def Duration.Millisecond : GoUnit :=
  ⟨"duration".data, "ms".data, "Millisecond".data, 0.001, 0, false, false⟩

def Duration.Microsecond : GoUnit :=
  ⟨"duration".data, "µs".data, "Microsecond".data, 0.000001, 0, false, false⟩

def Duration.Nanosecond : GoUnit :=
  ⟨"duration".data, "ns".data, "Nanosecond".data, 0.000000001, 0, false, false⟩

/-- The `float64` value of `math.Pi`, used by the angle units; any fixed
nonzero rational is adequate for the properties proved here, and this one
is the decimal expansion of the double-precision constant. -/
def piFloat : ℚ := 3.141592653589793

def Angle.Radian : GoUnit :=
  ⟨"angle".data, "rad".data, "Radian".data, 1, 0, true, false⟩

def Angle.Degree : GoUnit :=
  ⟨"angle".data, "°".data, "Degree".data, piFloat / 180, 0, false, false⟩

def Angle.Arcminute : GoUnit :=
  ⟨"angle".data, "′".data, "Arcminute".data, piFloat / (180 * 60), 0, false, false⟩

def Angle.Arcsecond : GoUnit :=
  ⟨"angle".data, "″".data, "Arcsecond".data, piFloat / (180 * 60 * 60), 0, false, false⟩

def Angle.Revolution : GoUnit :=
  ⟨"angle".data, "rev".data, "Revolution".data, 2 * piFloat, 0, false, false⟩

def Angle.Gradian : GoUnit :=
  ⟨"angle".data, "grad".data, "Gradian".data, piFloat / 200, 0, false, false⟩

def Area.SquareMeter : GoUnit :=
  ⟨"area".data, "m²".data, "Square Meter".data, 1, 0, true, false⟩

def Area.SquareKilometer : GoUnit :=
  ⟨"area".data, "km²".data, "Square Kilometer".data, 1000000, 0, false, false⟩

def Area.SquareCentimeter : GoUnit :=
  ⟨"area".data, "cm²".data, "Square Centimeter".data, 0.0001, 0, false, false⟩

def Area.SquareMillimeter : GoUnit :=
  ⟨"area".data, "mm²".data, "Square Millimeter".data, 0.000001, 0, false, false⟩

def Area.SquareInch : GoUnit :=
  ⟨"area".data, "in²".data, "Square Inch".data, 0.00064516, 0, false, false⟩

def Area.SquareFoot : GoUnit :=
  ⟨"area".data, "ft²".data, "Square Foot".data, 0.09290304, 0, false, false⟩

def Area.SquareYard : GoUnit :=
  ⟨"area".data, "yd²".data, "Square Yard".data, 0.83612736, 0, false, false⟩

def Area.SquareMile : GoUnit :=
  ⟨"area".data, "mi²".data, "Square Mile".data, 2589988.11, 0, false, false⟩

def Area.Acre : GoUnit :=
  ⟨"area".data, "ac".data, "Acre".data, 4046.86, 0, false, false⟩

def Area.Hectare : GoUnit :=
  ⟨"area".data, "ha".data, "Hectare".data, 10000, 0, false, false⟩

def Volume.CubicMeter : GoUnit :=
  ⟨"volume".data, "m³".data, "Cubic Meter".data, 1, 0, true, false⟩

def Volume.CubicKilometer : GoUnit :=
  ⟨"volume".data, "km³".data, "Cubic Kilometer".data, 1000000000, 0, false, false⟩

def Volume.CubicCentimeter : GoUnit :=
  ⟨"volume".data, "cm³".data, "Cubic Centimeter".data, 0.000001, 0, false, false⟩

def Volume.CubicMillimeter : GoUnit :=
  ⟨"volume".data, "mm³".data, "Cubic Millimeter".data, 0.000000001, 0, false, false⟩

def Volume.Liter : GoUnit :=
  ⟨"volume".data, "L".data, "Liter".data, 0.001, 0, false, false⟩

def Volume.Milliliter : GoUnit :=
  ⟨"volume".data, "mL".data, "Milliliter".data, 0.000001, 0, false, false⟩

def Volume.CubicInch : GoUnit :=
  ⟨"volume".data, "in³".data, "Cubic Inch".data, 0.000016387064, 0, false, false⟩

def Volume.CubicFoot : GoUnit :=
  ⟨"volume".data, "ft³".data, "Cubic Foot".data, 0.028316846592, 0, false, false⟩

def Volume.CubicYard : GoUnit :=
  ⟨"volume".data, "yd³".data, "Cubic Yard".data, 0.764554857984, 0, false, false⟩

def Volume.Gallon : GoUnit :=
  ⟨"volume".data, "gal".data, "Gallon".data, 0.003785411784, 0, false, false⟩

def Volume.Quart : GoUnit :=
  ⟨"volume".data, "qt".data, "Quart".data, 0.000946352946, 0, false, false⟩

def Volume.Pint : GoUnit :=
  ⟨"volume".data, "pt".data, "Pint".data, 0.000473176473, 0, false, false⟩

def Volume.Cup : GoUnit :=
  ⟨"volume".data, "cup".data, "Cup".data, 0.000236588236, 0, false, false⟩

def Volume.FluidOunce : GoUnit :=
  ⟨"volume".data, "fl oz".data, "Fluid Ounce".data, 0.0000295735295625, 0, false, false⟩

def Acceleration.MetersPerSecondSquared : GoUnit :=
  ⟨"acceleration".data, "m/s²".data, "Meters per Second Squared".data, 1, 0, true, false⟩

def Acceleration.G : GoUnit :=
  ⟨"acceleration".data, "g".data, "G-force".data, 9.80665, 0, false, false⟩

def Acceleration.FeetPerSecondSquared : GoUnit :=
  ⟨"acceleration".data, "ft/s²".data, "Feet per Second Squared".data, 0.3048, 0, false, false⟩

def Concentration.GramsPerLiter : GoUnit :=
  ⟨"concentration".data, "g/L".data, "Grams per Liter".data, 1, 0, true, false⟩

def Concentration.MilligramsPerLiter : GoUnit :=
  ⟨"concentration".data, "mg/L".data, "Milligrams per Liter".data, 0.001, 0, false, false⟩

def Concentration.PartsPerMillion : GoUnit :=
  ⟨"concentration".data, "ppm".data, "Parts per Million".data, 0.001, 0, false, false⟩

def Concentration.PartsPerBillion : GoUnit :=
  ⟨"concentration".data, "ppb".data, "Parts per Billion".data, 0.000001, 0, false, false⟩

def Dispersion.PartsPerMillion : GoUnit :=
  ⟨"dispersion".data, "ppm".data, "Parts per Million".data, 1, 0, true, false⟩

def Dispersion.PartsPerBillion : GoUnit :=
  ⟨"dispersion".data, "ppb".data, "Parts per Billion".data, 0.001, 0, false, false⟩

def Dispersion.PartsPerTrillion : GoUnit :=
  ⟨"dispersion".data, "ppt".data, "Parts per Trillion".data, 0.000001, 0, false, false⟩

def Dispersion.Percent : GoUnit :=
  ⟨"dispersion".data, "%".data, "Percent".data, 10000, 0, false, false⟩

def Speed.MetersPerSecond : GoUnit :=
  ⟨"speed".data, "m/s".data, "Meters per Second".data, 1, 0, true, false⟩

def Speed.KilometersPerHour : GoUnit :=
  ⟨"speed".data, "km/h".data, "Kilometers per Hour".data, 1 / 3.6, 0, false, false⟩

def Speed.MilesPerHour : GoUnit :=
  ⟨"speed".data, "mph".data, "Miles per Hour".data, 0.44704, 0, false, false⟩

def Speed.FeetPerSecond : GoUnit :=
  ⟨"speed".data, "ft/s".data, "Feet per Second".data, 0.3048, 0, false, false⟩

def Speed.Knot : GoUnit :=
  ⟨"speed".data, "kn".data, "Knot".data, 0.51444, 0, false, false⟩

def ElectricCharge.Coulomb : GoUnit :=
  ⟨"electric_charge".data, "C".data, "Coulomb".data, 1, 0, true, false⟩

def ElectricCharge.Millicoulomb : GoUnit :=
  ⟨"electric_charge".data, "mC".data, "Millicoulomb".data, 0.001, 0, false, false⟩

def ElectricCharge.Microcoulomb : GoUnit :=
  ⟨"electric_charge".data, "µC".data, "Microcoulomb".data, 0.000001, 0, false, false⟩

def ElectricCharge.AmpereHour : GoUnit :=
  ⟨"electric_charge".data, "Ah".data, "Ampere-hour".data, 3600, 0, false, false⟩

def ElectricCharge.MilliampereHour : GoUnit :=
  ⟨"electric_charge".data, "mAh".data, "Milliampere-hour".data, 3.6, 0, false, false⟩

def ElectricCurrent.Ampere : GoUnit :=
  ⟨"electric_current".data, "A".data, "Ampere".data, 1, 0, true, false⟩

def ElectricCurrent.Milliampere : GoUnit :=
  ⟨"electric_current".data, "mA".data, "Milliampere".data, 0.001, 0, false, false⟩

def ElectricCurrent.Microampere : GoUnit :=
  ⟨"electric_current".data, "µA".data, "Microampere".data, 0.000001, 0, false, false⟩

def ElectricCurrent.Kiloampere : GoUnit :=
  ⟨"electric_current".data, "kA".data, "Kiloampere".data, 1000, 0, false, false⟩

def ElectricPotentialDifference.Volt : GoUnit :=
  ⟨"electric_potential_difference".data, "V".data, "Volt".data, 1, 0, true, false⟩

def ElectricPotentialDifference.Millivolt : GoUnit :=
  ⟨"electric_potential_difference".data, "mV".data, "Millivolt".data, 0.001, 0, false, false⟩

def ElectricPotentialDifference.Microvolt : GoUnit :=
  ⟨"electric_potential_difference".data, "µV".data, "Microvolt".data, 0.000001, 0, false, false⟩

def ElectricPotentialDifference.Kilovolt : GoUnit :=
  ⟨"electric_potential_difference".data, "kV".data, "Kilovolt".data, 1000, 0, false, false⟩

def ElectricPotentialDifference.Megavolt : GoUnit :=
  ⟨"electric_potential_difference".data, "MV".data, "Megavolt".data, 1000000, 0, false, false⟩

def Information.Bit : GoUnit :=
  ⟨"information".data, "bit".data, "Bit".data, 0.125, 0, false, false⟩

def Information.Byte : GoUnit :=
  ⟨"information".data, "B".data, "Byte".data, 1, 0, true, false⟩

def Information.Kilobyte : GoUnit :=
  ⟨"information".data, "KB".data, "Kilobyte".data, 1000, 0, false, false⟩

def Information.Megabyte : GoUnit :=
  ⟨"information".data, "MB".data, "Megabyte".data, 1000000, 0, false, false⟩

def Information.Gigabyte : GoUnit :=
  ⟨"information".data, "GB".data, "Gigabyte".data, 1000000000, 0, false, false⟩

def Information.Terabyte : GoUnit :=
  ⟨"information".data, "TB".data, "Terabyte".data, 1000000000000, 0, false, false⟩

def Information.Petabyte : GoUnit :=
  ⟨"information".data, "PB".data, "Petabyte".data, 1000000000000000, 0, false, false⟩

def Information.Kibibyte : GoUnit :=
  ⟨"information".data, "KiB".data, "Kibibyte".data, 1024, 0, false, false⟩

def Information.Mebibyte : GoUnit :=
  ⟨"information".data, "MiB".data, "Mebibyte".data, 1048576, 0, false, false⟩

def Information.Gibibyte : GoUnit :=
  ⟨"information".data, "GiB".data, "Gibibyte".data, 1073741824, 0, false, false⟩

def Information.Tebibyte : GoUnit :=
  ⟨"information".data, "TiB".data, "Tebibyte".data, 1099511627776, 0, false, false⟩

def Information.Pebibyte : GoUnit :=
  ⟨"information".data, "PiB".data, "Pebibyte".data, 1125899906842624, 0, false, false⟩

def Frequency.Hertz : GoUnit :=
  ⟨"frequency".data, "Hz".data, "Hertz".data, 1, 0, true, false⟩

def Frequency.Kilohertz : GoUnit :=
  ⟨"frequency".data, "kHz".data, "Kilohertz".data, 1000, 0, false, false⟩

def Frequency.Megahertz : GoUnit :=
  ⟨"frequency".data, "MHz".data, "Megahertz".data, 1000000, 0, false, false⟩

def Frequency.Gigahertz : GoUnit :=
  ⟨"frequency".data, "GHz".data, "Gigahertz".data, 1000000000, 0, false, false⟩

def Frequency.Terahertz : GoUnit :=
  ⟨"frequency".data, "THz".data, "Terahertz".data, 1000000000000, 0, false, false⟩

def Frequency.RPM : GoUnit :=
  ⟨"frequency".data, "rpm".data, "Revolutions Per Minute".data, 1 / 60, 0, false, false⟩

def Illuminance.Lux : GoUnit :=
  ⟨"illuminance".data, "lx".data, "Lux".data, 1, 0, true, false⟩

def Illuminance.FootCandle : GoUnit :=
  ⟨"illuminance".data, "fc".data, "Foot-candle".data, 10.7639, 0, false, false⟩

def Illuminance.Phot : GoUnit :=
  ⟨"illuminance".data, "ph".data, "Phot".data, 10000, 0, false, false⟩

def Illuminance.Nox : GoUnit :=
  ⟨"illuminance".data, "nx".data, "Nox".data, 0.001, 0, false, false⟩

def FuelEfficiency.KilometersPerLiter : GoUnit :=
  ⟨"fuel_efficiency".data, "km/L".data, "Kilometers per Liter".data, 1, 0, true, true⟩

def FuelEfficiency.MilesPerGallon : GoUnit :=
  ⟨"fuel_efficiency".data, "mpg".data, "Miles per Gallon".data, 0.425144, 0, false, true⟩

def FuelEfficiency.LitersPer100Kilometers : GoUnit :=
  ⟨"fuel_efficiency".data, "L/100km".data, "Liters per 100 Kilometers".data, -100, 0, false, true⟩

def General.Unit : GoUnit :=
  ⟨"general".data, "unit".data, "General Unit".data, 1, 0, true, false⟩

/-- `NewFuelEfficiency`: the constructor panics on a zero `L/100km`
quantity (infinite efficiency); otherwise it is `New`. -/
def NewFuelEfficiency (value : ℚ) (u : GoUnit) : Except GoError GoQuantity :=
  if goEquals u FuelEfficiency.LitersPer100Kilometers ∧ value = 0 then
    .error .fuelZero
  else .ok ⟨value, u⟩

/-- One `case` arm of a dimension-specific unmarshaler's `switch`: the
symbol literals it accepts, the snake_case key token it accepts via
`matchUnitByKey`, and the unit it selects. -/
structure UnitEntry where
  symbols : List Str
  keyName : Str
  unit : GoUnit
deriving DecidableEq

/-- The data of one dimension-specific unmarshaler. -/
structure DimSpec where
  dim : Str
  fuelGuard : Bool
  generalFallback : Bool
  entries : List UnitEntry
deriving DecidableEq

/-- First `case` arm matched by the parsed symbol or key, mirroring the
order of the Go `switch`. -/
def resolveEntries (es : List UnitEntry) (symbol key : Str) :
    Option GoUnit :=
  (es.find? (fun e =>
    e.symbols.any (fun s => symbol == s) || matchKey key e.keyName)).map
    (·.unit)

/-- A dimension-specific `Unmarshal<D>` function: parse, check the
dimension tag, resolve the unit through the switch, and build the
quantity (through `NewFuelEfficiency` for the fuel-efficiency dimension,
and with `UnmarshalGeneral`'s custom-unit fallback for `general`). -/
def unmarshalDim (spec : DimSpec) (j : Json) : Except GoError GoQuantity :=
  match parseMeasurement j with
  | .error e => .error e
  | .ok p =>
    if p.dimension ≠ spec.dim then .error .wrongDimension
    else
      match resolveEntries spec.entries p.symbol p.key with
      | some u =>
        if spec.fuelGuard then NewFuelEfficiency p.value u
        else .ok ⟨p.value, u⟩
      | none =>
        if spec.generalFallback then
          let symbolOrKey :=
            if p.symbol = [] ∧ p.key ≠ [] then (parseUnitKey p.key).2
            else p.symbol
          let nm := if p.name = [] then symbolOrKey else p.name
          .ok ⟨p.value, NewGeneralUnit symbolOrKey nm⟩
        else .error .unknownUnit

def temperatureSpec : DimSpec :=
  ⟨"temperature".data, false, false,
    [⟨["°C".data, "C".data], "celsius".data, Temperature.Celsius⟩,
     ⟨["°F".data, "F".data], "fahrenheit".data, Temperature.Fahrenheit⟩,
     ⟨["K".data], "kelvin".data, Temperature.Kelvin⟩]⟩

def pressureSpec : DimSpec :=
  ⟨"pressure".data, false, false,
    [⟨["Pa".data], "pascal".data, Pressure.Pascal⟩,
     ⟨["kPa".data], "kilopascal".data, Pressure.Kilopascal⟩,
     ⟨["bar".data], "bar".data, Pressure.Bar⟩,
     ⟨["psi".data], "psi".data, Pressure.PSI⟩,
     ⟨["inH₂O".data, "inH2O".data], "inch_h2o".data, Pressure.InchH2O⟩]⟩

def flowRateSpec : DimSpec :=
  ⟨"flowrate".data, false, false,
    [⟨["m³/h".data], "cubic_meters_per_hour".data, FlowRate.CubicMetersPerHour⟩,
     ⟨["L/s".data], "liters_per_second".data, FlowRate.LitersPerSecond⟩,
     ⟨["CFM".data], "cfm".data, FlowRate.CFM⟩]⟩

def powerSpec : DimSpec :=
  ⟨"power".data, false, false,
    [⟨["W".data], "watt".data, Power.Watt⟩,
     ⟨["kW".data], "kilowatt".data, Power.Kilowatt⟩,
     ⟨["BTU/h".data], "btu_per_hour".data, Power.BTUPerHour⟩]⟩

def energySpec : DimSpec :=
  ⟨"energy".data, false, false,
    [⟨["J".data], "joule".data, Energy.Joule⟩,
     ⟨["kWh".data], "kilowatt_hour".data, Energy.KilowattHour⟩,
     ⟨["BTU".data], "btu".data, Energy.BTU⟩]⟩

def lengthSpec : DimSpec :=
  ⟨"length".data, false, false,
    [⟨["m".data], "meter".data, Length.Meter⟩,
     ⟨["km".data], "kilometer".data, Length.Kilometer⟩,
     ⟨["cm".data], "centimeter".data, Length.Centimeter⟩,
     ⟨["mm".data], "millimeter".data, Length.Millimeter⟩,
     ⟨["µm".data], "micrometer".data, Length.Micrometer⟩,
     ⟨["nm".data], "nanometer".data, Length.Nanometer⟩,
     ⟨["in".data], "inch".data, Length.Inch⟩,
     ⟨["ft".data], "foot".data, Length.Foot⟩,
     ⟨["yd".data], "yard".data, Length.Yard⟩,
     ⟨["mi".data], "mile".data, Length.Mile⟩]⟩

def massSpec : DimSpec :=
  ⟨"mass".data, false, false,
    [⟨["kg".data], "kilogram".data, Mass.Kilogram⟩,
     ⟨["g".data], "gram".data, Mass.Gram⟩,
     ⟨["mg".data], "milligram".data, Mass.Milligram⟩,
     ⟨["µg".data], "microgram".data, Mass.Microgram⟩,
     ⟨["lb".data], "pound".data, Mass.Pound⟩,
     ⟨["oz".data], "ounce".data, Mass.Ounce⟩,
     ⟨["st".data], "stone".data, Mass.Stone⟩,
     ⟨["t".data], "metric_ton".data, Mass.MetricTon⟩,
     ⟨["ton".data], "ton".data, Mass.Ton⟩]⟩

def durationSpec : DimSpec :=
  ⟨"duration".data, false, false,
    [⟨["s".data], "second".data, Duration.Second⟩,
     ⟨["min".data], "minute".data, Duration.Minute⟩,
     ⟨["h".data], "hour".data, Duration.Hour⟩,
     ⟨["d".data], "day".data, Duration.Day⟩,
     ⟨["ms".data], "millisecond".data, Duration.Millisecond⟩,
     ⟨["µs".data], "microsecond".data, Duration.Microsecond⟩,
     ⟨["ns".data], "nanosecond".data, Duration.Nanosecond⟩]⟩

def angleSpec : DimSpec :=
  ⟨"angle".data, false, false,
    [⟨["rad".data], "radian".data, Angle.Radian⟩,
     ⟨["°".data], "degree".data, Angle.Degree⟩,
     ⟨["′".data], "arcminute".data, Angle.Arcminute⟩,
     ⟨["″".data], "arcsecond".data, Angle.Arcsecond⟩,
     ⟨["rev".data], "revolution".data, Angle.Revolution⟩,
     ⟨["grad".data], "gradian".data, Angle.Gradian⟩]⟩

def areaSpec : DimSpec :=
  ⟨"area".data, false, false,
    [⟨["m²".data], "square_meter".data, Area.SquareMeter⟩,
     ⟨["km²".data], "square_kilometer".data, Area.SquareKilometer⟩,
     ⟨["cm²".data], "square_centimeter".data, Area.SquareCentimeter⟩,
     ⟨["mm²".data], "square_millimeter".data, Area.SquareMillimeter⟩,
     ⟨["in²".data], "square_inch".data, Area.SquareInch⟩,
     ⟨["ft²".data], "square_foot".data, Area.SquareFoot⟩,
     ⟨["yd²".data], "square_yard".data, Area.SquareYard⟩,
     ⟨["mi²".data], "square_mile".data, Area.SquareMile⟩,
     ⟨["ac".data], "acre".data, Area.Acre⟩,
     ⟨["ha".data], "hectare".data, Area.Hectare⟩]⟩

def volumeSpec : DimSpec :=
  ⟨"volume".data, false, false,
    [⟨["m³".data], "cubic_meter".data, Volume.CubicMeter⟩,
     ⟨["km³".data], "cubic_kilometer".data, Volume.CubicKilometer⟩,
     ⟨["cm³".data], "cubic_centimeter".data, Volume.CubicCentimeter⟩,
     ⟨["mm³".data], "cubic_millimeter".data, Volume.CubicMillimeter⟩,
     ⟨["L".data], "liter".data, Volume.Liter⟩,
     ⟨["mL".data], "milliliter".data, Volume.Milliliter⟩,
     ⟨["in³".data], "cubic_inch".data, Volume.CubicInch⟩,
     ⟨["ft³".data], "cubic_foot".data, Volume.CubicFoot⟩,
     ⟨["yd³".data], "cubic_yard".data, Volume.CubicYard⟩,
     ⟨["gal".data], "gallon".data, Volume.Gallon⟩,
     ⟨["qt".data], "quart".data, Volume.Quart⟩,
     ⟨["pt".data], "pint".data, Volume.Pint⟩,
     ⟨["cup".data], "cup".data, Volume.Cup⟩,
     ⟨["fl oz".data], "fluid_ounce".data, Volume.FluidOunce⟩]⟩

def accelerationSpec : DimSpec :=
  ⟨"acceleration".data, false, false,
    [⟨["m/s²".data], "meters_per_second_squared".data, Acceleration.MetersPerSecondSquared⟩,
     ⟨["g".data], "g".data, Acceleration.G⟩,
     ⟨["ft/s²".data], "feet_per_second_squared".data, Acceleration.FeetPerSecondSquared⟩]⟩

def concentrationSpec : DimSpec :=
  ⟨"concentration".data, false, false,
    [⟨["g/L".data], "grams_per_liter".data, Concentration.GramsPerLiter⟩,
     ⟨["mg/L".data], "milligrams_per_liter".data, Concentration.MilligramsPerLiter⟩,
     ⟨["ppm".data], "parts_per_million".data, Concentration.PartsPerMillion⟩,
     ⟨["ppb".data], "parts_per_billion".data, Concentration.PartsPerBillion⟩]⟩

def dispersionSpec : DimSpec :=
  ⟨"dispersion".data, false, false,
    [⟨["ppm".data], "parts_per_million".data, Dispersion.PartsPerMillion⟩,
     ⟨["ppb".data], "parts_per_billion".data, Dispersion.PartsPerBillion⟩,
     ⟨["ppt".data], "parts_per_trillion".data, Dispersion.PartsPerTrillion⟩,
     ⟨["%".data], "percent".data, Dispersion.Percent⟩]⟩

def electricChargeSpec : DimSpec :=
  ⟨"electric_charge".data, false, false,
    [⟨["C".data], "coulomb".data, ElectricCharge.Coulomb⟩,
     ⟨["mC".data], "millicoulomb".data, ElectricCharge.Millicoulomb⟩,
     ⟨["µC".data], "microcoulomb".data, ElectricCharge.Microcoulomb⟩,
     ⟨["Ah".data], "ampere_hour".data, ElectricCharge.AmpereHour⟩,
     ⟨["mAh".data], "milliampere_hour".data, ElectricCharge.MilliampereHour⟩]⟩

def electricCurrentSpec : DimSpec :=
  ⟨"electric_current".data, false, false,
    [⟨["A".data], "ampere".data, ElectricCurrent.Ampere⟩,
     ⟨["mA".data], "milliampere".data, ElectricCurrent.Milliampere⟩,
     ⟨["µA".data], "microampere".data, ElectricCurrent.Microampere⟩,
     ⟨["kA".data], "kiloampere".data, ElectricCurrent.Kiloampere⟩]⟩

def electricPotentialDifferenceSpec : DimSpec :=
  ⟨"electric_potential_difference".data, false, false,
    [⟨["V".data], "volt".data, ElectricPotentialDifference.Volt⟩,
     ⟨["mV".data], "millivolt".data, ElectricPotentialDifference.Millivolt⟩,
     ⟨["µV".data], "microvolt".data, ElectricPotentialDifference.Microvolt⟩,
     ⟨["kV".data], "kilovolt".data, ElectricPotentialDifference.Kilovolt⟩,
     ⟨["MV".data], "megavolt".data, ElectricPotentialDifference.Megavolt⟩]⟩

def informationSpec : DimSpec :=
  ⟨"information".data, false, false,
    [⟨["bit".data], "bit".data, Information.Bit⟩,
     ⟨["B".data], "byte".data, Information.Byte⟩,
     ⟨["KB".data], "kilobyte".data, Information.Kilobyte⟩,
     ⟨["MB".data], "megabyte".data, Information.Megabyte⟩,
     ⟨["GB".data], "gigabyte".data, Information.Gigabyte⟩,
     ⟨["TB".data], "terabyte".data, Information.Terabyte⟩,
     ⟨["PB".data], "petabyte".data, Information.Petabyte⟩,
     ⟨["KiB".data], "kibibyte".data, Information.Kibibyte⟩,
     ⟨["MiB".data], "mebibyte".data, Information.Mebibyte⟩,
     ⟨["GiB".data], "gibibyte".data, Information.Gibibyte⟩,
     ⟨["TiB".data], "tebibyte".data, Information.Tebibyte⟩,
     ⟨["PiB".data], "pebibyte".data, Information.Pebibyte⟩]⟩

def frequencySpec : DimSpec :=
  ⟨"frequency".data, false, false,
    [⟨["Hz".data], "hertz".data, Frequency.Hertz⟩,
     ⟨["kHz".data], "kilohertz".data, Frequency.Kilohertz⟩,
     ⟨["MHz".data], "megahertz".data, Frequency.Megahertz⟩,
     ⟨["GHz".data], "gigahertz".data, Frequency.Gigahertz⟩,
     ⟨["THz".data], "terahertz".data, Frequency.Terahertz⟩,
     ⟨["rpm".data], "rpm".data, Frequency.RPM⟩]⟩

def illuminanceSpec : DimSpec :=
  ⟨"illuminance".data, false, false,
    [⟨["lx".data], "lux".data, Illuminance.Lux⟩,
     ⟨["fc".data], "foot_candle".data, Illuminance.FootCandle⟩,
     ⟨["ph".data], "phot".data, Illuminance.Phot⟩,
     ⟨["nx".data], "nox".data, Illuminance.Nox⟩]⟩

def fuelEfficiencySpec : DimSpec :=
  ⟨"fuel_efficiency".data, true, false,
    [⟨["km/L".data], "kilometers_per_liter".data, FuelEfficiency.KilometersPerLiter⟩,
     ⟨["mpg".data], "miles_per_gallon".data, FuelEfficiency.MilesPerGallon⟩,
     ⟨["L/100km".data], "liters_per_100_kilometers".data, FuelEfficiency.LitersPer100Kilometers⟩]⟩

def generalSpec : DimSpec :=
  ⟨"general".data, false, true,
    [⟨["unit".data], "unit".data, General.Unit⟩]⟩

def speedSpec : DimSpec :=
  ⟨"speed".data, false, false,
    [⟨["m/s".data], "meters_per_second".data, Speed.MetersPerSecond⟩,
     ⟨["km/h".data], "kilometers_per_hour".data, Speed.KilometersPerHour⟩,
     ⟨["mph".data], "miles_per_hour".data, Speed.MilesPerHour⟩,
     ⟨["ft/s".data], "feet_per_second".data, Speed.FeetPerSecond⟩,
     ⟨["kn".data], "knot".data, Speed.Knot⟩]⟩

/-- The dimensions dispatched by `UnmarshalMeasurement`'s switch. -/
def knownSpecs : List DimSpec :=
  [temperatureSpec, pressureSpec, flowRateSpec, powerSpec, energySpec,
   lengthSpec, massSpec, durationSpec, angleSpec, areaSpec, volumeSpec,
   accelerationSpec, concentrationSpec, dispersionSpec, electricChargeSpec,
   electricCurrentSpec, electricPotentialDifferenceSpec, informationSpec,
   frequencySpec, illuminanceSpec, fuelEfficiencySpec, speedSpec,
   generalSpec]

/-- `AnyMeasurement`: the runtime-erased wrapper (its payload's Go-level
dynamic type is flattened into the quantity itself). -/
structure AnyMeasurement where
  dimension : Str
  payload : GoQuantity
deriving DecidableEq

/-- The fallback constructor used by `UnmarshalMeasurement`: the value and
unit info are re-extracted with errors ignored, and a synthetic general
unit carries the payload's unit text. -/
def createFallback (j : Json) : AnyMeasurement :=
  let value := match unmarshalValue j with
    | .ok v => v
    | .error _ => 0
  let info := match unmarshalUnitInfo j with
    | .ok x => x
    | .error _ => ([], [], [])
  let symbol :=
    if info.2.2 ≠ [] ∧ info.1 = [] then (parseUnitKey info.2.2).2 else info.1
  let nm := if info.2.1 = [] then symbol else info.2.1
  ⟨"general".data, ⟨value, NewGeneralUnit symbol nm⟩⟩

/-- `UnmarshalMeasurement`: detect the dimension, dispatch to its
unmarshaler, and fall back to a general measurement on any failure of a
known non-general dimension or on an unknown dimension; only the
`general` arm propagates its unmarshaler's error. -/
def UnmarshalMeasurement (j : Json) : Except GoError AnyMeasurement :=
  match detectFormat j with
  | .error e => .error e
  | .ok (_, dimension) =>
    match knownSpecs.find? (fun s => s.dim == dimension) with
    | some spec =>
      match unmarshalDim spec j with
      | .ok m => .ok ⟨spec.dim, m⟩
      | .error e =>
        if spec.generalFallback then .error e
        else .ok (createFallback j)
    | none => .ok (createFallback j)

/-! ## Helper lemmas -/

theorem convertToBaseUnit_error_eq {u : GoUnit} {v : ℚ} {e : GoError}
    (h : convertToBaseUnit u v = .error e) : e = .fuelZero := by
  unfold convertToBaseUnit at h
  split at h
  · split at h
    · exact (Except.error.injEq _ _).mp h |>.symm
    · exact absurd h (by simp)
  · exact absurd h (by simp)

theorem convertFromBaseUnit_error_eq {u : GoUnit} {v : ℚ} {e : GoError}
    (h : convertFromBaseUnit u v = .error e) : e = .fuelZero := by
  unfold convertFromBaseUnit at h
  split at h
  · split at h
    · exact (Except.error.injEq _ _).mp h |>.symm
    · exact absurd h (by simp)
  · exact absurd h (by simp)

theorem goEquals_iff {u o : GoUnit} :
    goEquals u o = true ↔ u.dimension = o.dimension ∧ u.symbol = o.symbol := by
  simp [goEquals]

/-- `ConvertTo` with matching dimensions never raises the dimension
mismatch panic (its only possible failure is the fuel-zero panic). -/
theorem convertTo_same_dim_ne (m : GoQuantity) (u : GoUnit)
    (h : m.unit.dimension = u.dimension) :
    Quantity.convertTo m u ≠ .error .dimensionMismatch := by
  intro hcontra
  unfold Quantity.convertTo at hcontra
  by_cases hg : goEquals m.unit u = true
  · rw [if_pos hg] at hcontra
    exact Except.noConfusion hcontra
  · rw [if_neg hg, if_neg (by simp [h])] at hcontra
    rcases hcb : convertToBaseUnit m.unit m.value with e | b <;>
      rw [hcb] at hcontra <;> dsimp only at hcontra
    · have he := convertToBaseUnit_error_eq hcb
      subst he
      exact absurd hcontra (by simp)
    · rcases hfb : convertFromBaseUnit u b with e2 | t <;>
        rw [hfb] at hcontra <;> dsimp only at hcontra
      · have he := convertFromBaseUnit_error_eq hfb
        subst he
        exact absurd hcontra (by simp)
      · exact Except.noConfusion hcontra

/-- C3: evaluation of the code at the claimed inputs.  The code converts
0 °C to 30.6 °F, not 32 °F, because the Fahrenheit offset `-32*5/9` is Go
integer constant division (`-17`) — contradicting the in-code comment
`(F - 32) * 5/9 = C`; the Kelvin half of the claim does hold:
100 °C converts to 373.15 K. -/
theorem C3_affine_conversion_examples :
    Quantity.convertTo ⟨0, Temperature.Celsius⟩ Temperature.Fahrenheit =
      .ok ⟨30.6, Temperature.Fahrenheit⟩ ∧
    (30.6 : ℚ) ≠ 32 ∧
    Quantity.convertTo ⟨100, Temperature.Celsius⟩ Temperature.Kelvin =
      .ok ⟨373.15, Temperature.Kelvin⟩ := by
  refine ⟨?_, by norm_num, ?_⟩
  · show Except.ok (GoQuantity.mk (baseConvertFromBaseUnit Temperature.Fahrenheit
      (baseConvertToBaseUnit Temperature.Celsius 0)) Temperature.Fahrenheit) = _
    norm_num [baseConvertFromBaseUnit, baseConvertToBaseUnit,
      Temperature.Celsius, Temperature.Fahrenheit]
  · show Except.ok (GoQuantity.mk (baseConvertFromBaseUnit Temperature.Kelvin
      (baseConvertToBaseUnit Temperature.Celsius 100)) Temperature.Kelvin) = _
    norm_num [baseConvertFromBaseUnit, baseConvertToBaseUnit,
      Temperature.Celsius, Temperature.Kelvin]

/-- C8: converting 5 L/100km to km/L yields exactly 20, via the reciprocal
(non-linear) conversion through the base unit. -/
theorem C8_reciprocal_fuel_conversion :
    Quantity.convertTo ⟨5, FuelEfficiency.LitersPer100Kilometers⟩
      FuelEfficiency.KilometersPerLiter =
      .ok ⟨20, FuelEfficiency.KilometersPerLiter⟩ := by
  show Except.ok (GoQuantity.mk (baseConvertFromBaseUnit
    FuelEfficiency.KilometersPerLiter ((100 : ℚ) / 5))
    FuelEfficiency.KilometersPerLiter) = _
  norm_num [baseConvertFromBaseUnit, FuelEfficiency.KilometersPerLiter]

/-- C9: the compact-key derivation gives `pressure_kilopascal` and
`speed_kilometers_per_hour`, and snake-casing the acronym `BTU` gives
`b_t_u`, not `btu`. -/
theorem C9_compact_key_derivation :
    unitKey "pressure".data "Kilopascal".data = "pressure_kilopascal".data ∧
    unitKey "speed".data "KilometersPerHour".data =
      "speed_kilometers_per_hour".data ∧
    toSnakeCase "BTU".data = "b_t_u".data ∧
    toSnakeCase "BTU".data ≠ "btu".data := by
  refine ⟨by decide, by decide, by decide, by decide⟩

theorem splitFirstUnderscore_append (a b : Str) (h : ∀ c ∈ a, c ≠ '_') :
    splitFirstUnderscore (a ++ '_' :: b) = some (a, b) := by
  induction a with
  | nil => simp [splitFirstUnderscore]
  | cons c t ih =>
    have hc : c ≠ '_' := h c (List.mem_cons_self c t)
    have ht : ∀ x ∈ t, x ≠ '_' := fun x hx => h x (List.mem_cons_of_mem c hx)
    simp [splitFirstUnderscore, hc, ih ht]

/-- C5: behavior of the format detector on documents whose top level is a
JSON object: it fails when there is no `unit` field; a string `unit`
classifies as minimal with the part before the first underscore as the
dimension; an object `unit` is classified by a string `key` field
(compact, dimension from the key's prefix), else a string `dimension`
field inside `unit` (full), else a top-level string `dimension` field
(legacy full); and it fails when none of these match.  The final part
characterizes the underscore split itself. -/
theorem C5_detect_format :
    (∀ fields, lookupLast fields "unit".data = none →
      detectFormat (.obj fields) = .error .missingUnit) ∧
    (∀ fields x, lookupLast fields "unit".data = some (.str x) →
      detectFormat (.obj fields) = .ok (.minimal, (parseUnitKey x).1)) ∧
    (∀ fields uf k, lookupLast fields "unit".data = some (.obj uf) →
      strFieldOf uf "key".data = some k →
      detectFormat (.obj fields) = .ok (.compact, (parseUnitKey k).1)) ∧
    (∀ fields uf d, lookupLast fields "unit".data = some (.obj uf) →
      strFieldOf uf "key".data = none →
      strFieldOf uf "dimension".data = some d →
      detectFormat (.obj fields) = .ok (.full, d)) ∧
    (∀ fields uf d, lookupLast fields "unit".data = some (.obj uf) →
      strFieldOf uf "key".data = none →
      strFieldOf uf "dimension".data = none →
      strFieldOf fields "dimension".data = some d →
      detectFormat (.obj fields) = .ok (.full, d)) ∧
    (∀ fields uf, lookupLast fields "unit".data = some (.obj uf) →
      strFieldOf uf "key".data = none →
      strFieldOf uf "dimension".data = none →
      strFieldOf fields "dimension".data = none →
      detectFormat (.obj fields) = .error .unknownFormat) ∧
    (∀ a b : Str, (∀ c ∈ a, c ≠ '_') → parseUnitKey (a ++ '_' :: b) = (a, b)) := by
  refine ⟨?_, ?_, ?_, ?_, ?_, ?_, ?_⟩
  · intro fields h
    simp [detectFormat, asGoObj, h]
  · intro fields x h
    simp [detectFormat, asGoObj, h, asGoString]
  · intro fields uf k h hk
    simp [detectFormat, asGoObj, h, asGoString, hk]
  · intro fields uf d h hk hd
    simp [detectFormat, asGoObj, h, asGoString, hk, hd]
  · intro fields uf d h hk hd1 hd2
    simp [detectFormat, asGoObj, h, asGoString, hk, hd1, hd2]
  · intro fields uf h hk hd1 hd2
    simp [detectFormat, asGoObj, h, asGoString, hk, hd1, hd2]
  · intro a b h
    unfold parseUnitKey
    rw [splitFirstUnderscore_append a b h]

/-- C5 witness: concrete instances — a document without a `unit` field is
rejected, and a string-unit document is classified as minimal with the
dimension `temperature`. -/
theorem C5_witness :
    detectFormat (.obj [("value".data, .num 25)]) = .error .missingUnit ∧
    detectFormat (.obj [("value".data, .num 25),
      ("unit".data, .str "temperature_celsius".data)]) =
      .ok (.minimal, "temperature".data) := by
  constructor
  · exact C5_detect_format.1 [("value".data, .num 25)] (by rfl)
  · have h := C5_detect_format.2.1 [("value".data, .num 25),
      ("unit".data, .str "temperature_celsius".data)]
      "temperature_celsius".data (by rfl)
    rw [h]
    have : (parseUnitKey "temperature_celsius".data).1 = "temperature".data := by
      decide
    rw [this]

theorem find?_append_of_none {α : Type} (p : α → Bool) (as bs : List α)
    (h : as.find? p = none) : (as ++ bs).find? p = bs.find? p := by
  induction as with
  | nil => rfl
  | cons a t ih =>
    rw [List.cons_append]
    by_cases hpa : p a = true
    · rw [List.find?_cons_of_pos _ hpa] at h
      exact absurd h (by simp)
    · rw [List.find?_cons_of_neg _ hpa] at h
      rw [List.find?_cons_of_neg _ hpa]
      exact ih h

/-- Trailing fields whose keys differ from `k` do not affect the
last-wins lookup of `k` in a two-field document. -/
theorem lookupLast_skip_rest (a b : Str × Json) (rest : List (Str × Json))
    (k : Str) (h : ∀ p ∈ rest, p.1 ≠ k) :
    lookupLast (a :: b :: rest) k = lookupLast [a, b] k := by
  unfold lookupLast
  rw [show (a :: b :: rest).reverse = rest.reverse ++ [b, a] by simp]
  rw [find?_append_of_none _ _ _ (List.find?_eq_none.mpr ?_)]
  · rfl
  · intro p hp
    simp [h p (List.mem_reverse.mp hp)]

/-- Trailing fields none of whose keys case-fold to `k` do not affect the
case-insensitive last-wins struct-field lookup of `k` in a two-field
document. -/
theorem lookupField_skip_rest (a b : Str × Json) (rest : List (Str × Json))
    (k : Str) (h : ∀ p ∈ rest, equalFold p.1 k = false) :
    lookupField (a :: b :: rest) k = lookupField [a, b] k := by
  unfold lookupField
  rw [show (a :: b :: rest).reverse = rest.reverse ++ [b, a] by simp]
  rw [find?_append_of_none _ _ _ (List.find?_eq_none.mpr ?_)]
  · rfl
  · intro p hp
    simp [h p (List.mem_reverse.mp hp)]

/-- C2 (amended): `UnmarshalMeasurement` on a syntactically valid
`(value: n, unit: "x", ...)` document whose unit string's dimension
prefix (the part before the first underscore) is not one of the
dispatched dimension tags — and none of whose extra field names
case-insensitively equals `value`, `unit` or `symbol` (Go's struct
decoding matches field names case-insensitively, so a case-variant key
such as `VALUE` would shadow the field) — returns, without error, a
measurement whose dimension is `general` and whose contained value is
`n`.  (When the prefix is a known tag, the result can carry that
dimension instead; see the counterexample.) -/
theorem C2_unmarshal_measurement_fallback :
    ∀ (n : ℚ) (x : Str) (rest : List (Str × Json)),
    (∀ p ∈ rest, equalFold p.1 "value".data = false ∧
      equalFold p.1 "unit".data = false ∧
      equalFold p.1 "symbol".data = false) →
    (∀ spec ∈ knownSpecs, spec.dim ≠ (parseUnitKey x).1) →
    ∃ am, UnmarshalMeasurement (.obj (("value".data, .num n) ::
        ("unit".data, .str x) :: rest)) = .ok am ∧
      am.dimension = "general".data ∧ am.payload.value = n := by
  intro n x rest hrest hdims
  set fs : List (Str × Json) := ("value".data, .num n) ::
    ("unit".data, .str x) :: rest with hfs
  have hex : ∀ (p : Str × Json) (k : Str), equalFold p.1 k = false →
      p.1 ≠ k := by
    intro p k h hk
    rw [hk] at h
    simp [equalFold] at h
  have hunitL : lookupLast fs "unit".data = some (.str x) := by
    rw [hfs, lookupLast_skip_rest _ _ _ _
      (fun p hp => hex p _ (hrest p hp).2.1)]
    rfl
  have hval : lookupField fs "value".data = some (.num n) := by
    rw [hfs, lookupField_skip_rest _ _ _ _ (fun p hp => (hrest p hp).1)]
    rfl
  have hunit : lookupField fs "unit".data = some (.str x) := by
    rw [hfs, lookupField_skip_rest _ _ _ _ (fun p hp => (hrest p hp).2.1)]
    rfl
  have hsym : lookupField fs "symbol".data = none := by
    rw [hfs, lookupField_skip_rest _ _ _ _ (fun p hp => (hrest p hp).2.2)]
    rfl
  have hdet : detectFormat (.obj fs) = .ok (.minimal, (parseUnitKey x).1) := by
    simp [detectFormat, asGoObj, hunitL, asGoString]
  have hval' : unmarshalValue (.obj fs) = .ok n := by
    simp [unmarshalValue, decNumField, hval]
  have hinfo : unmarshalUnitInfo (.obj fs) = .ok ([], [], x) := by
    unfold unmarshalUnitInfo
    rw [hdet]
    dsimp only
    simp [decMeasurementMinimal, decLegacyCompact, decNumField, decStrField,
      hval, hunit, hsym]
  have hfind : knownSpecs.find? (fun s => s.dim == (parseUnitKey x).1) =
      none :=
    List.find?_eq_none.mpr (fun s hs => by simp [hdims s hs])
  refine ⟨createFallback (.obj fs), ?_, rfl, ?_⟩
  · unfold UnmarshalMeasurement
    rw [hdet]
    dsimp only
    rw [hfind]
  · show (match unmarshalValue (Json.obj fs) with
      | .ok v => v
      | .error _ => 0) = n
    rw [hval']

/-- C2 counterexample: a minimal document whose unit key prefix is the
known dimension `temperature` is returned under that dimension, not
`general`. -/
theorem C2_counterexample :
    UnmarshalMeasurement (.obj [("value".data, .num 1),
      ("unit".data, .str "temperature_celsius".data)]) =
      .ok ⟨"temperature".data, ⟨1, Temperature.Celsius⟩⟩ ∧
    "temperature".data ≠ "general".data := by
  refine ⟨by decide, by decide⟩

/-- C2 witness: an unknown dimension tag (`warp_factor_9`) falls back to
a general measurement carrying the value 7. -/
theorem C2_witness :
    ∃ am, UnmarshalMeasurement (.obj [("value".data, .num 7),
        ("unit".data, .str "warp_factor_9".data)]) = .ok am ∧
      am.dimension = "general".data ∧ am.payload.value = 7 :=
  C2_unmarshal_measurement_fallback 7 "warp_factor_9".data []
    (by simp) (by decide)

/-- C6: `Add`, `Subtract` and `ConvertTo` fail with the DimensionMismatch
panic exactly across differing dimensions: when the two units' dimension
strings differ all three raise it, and when the dimensions agree none of
them does. -/
theorem C6_dimension_guard : ∀ a b : GoQuantity,
    (a.unit.dimension ≠ b.unit.dimension →
      Quantity.add a b = .error .dimensionMismatch ∧
      Quantity.sub a b = .error .dimensionMismatch ∧
      Quantity.convertTo a b.unit = .error .dimensionMismatch) ∧
    (a.unit.dimension = b.unit.dimension →
      Quantity.add a b ≠ .error .dimensionMismatch ∧
      Quantity.sub a b ≠ .error .dimensionMismatch ∧
      Quantity.convertTo a b.unit ≠ .error .dimensionMismatch) := by
  intro a b
  constructor
  · intro h
    have hg : goEquals a.unit b.unit ≠ true :=
      fun hc => h (goEquals_iff.mp hc).1
    refine ⟨by simp [Quantity.add, h], by simp [Quantity.sub, h], ?_⟩
    unfold Quantity.convertTo
    rw [if_neg hg, if_pos h]
  · intro h
    have hcv := convertTo_same_dim_ne b a.unit h.symm
    refine ⟨?_, ?_, convertTo_same_dim_ne a b.unit h⟩
    · unfold Quantity.add
      rw [if_neg (by simp [h])]
      rcases hc : Quantity.convertTo b a.unit with e | oc
      · exact fun hcontra => hcv (hc.trans hcontra)
      · simp
    · unfold Quantity.sub
      rw [if_neg (by simp [h])]
      rcases hc : Quantity.convertTo b a.unit with e | oc
      · exact fun hcontra => hcv (hc.trans hcontra)
      · simp

/-- C6 witness: a temperature/pressure pair panics with DimensionMismatch
in all three operations, and a temperature/temperature pair never does. -/
theorem C6_witness :
    (Quantity.add ⟨20, Temperature.Celsius⟩ ⟨101.3, Pressure.Kilopascal⟩ =
      .error .dimensionMismatch ∧
     Quantity.sub ⟨20, Temperature.Celsius⟩ ⟨101.3, Pressure.Kilopascal⟩ =
      .error .dimensionMismatch ∧
     Quantity.convertTo ⟨20, Temperature.Celsius⟩ Pressure.Kilopascal =
      .error .dimensionMismatch) ∧
    Quantity.add ⟨20, Temperature.Celsius⟩ ⟨68, Temperature.Fahrenheit⟩ ≠
      .error .dimensionMismatch := by
  constructor
  · exact (C6_dimension_guard ⟨20, Temperature.Celsius⟩
      ⟨101.3, Pressure.Kilopascal⟩).1 (by decide)
  · exact ((C6_dimension_guard ⟨20, Temperature.Celsius⟩
      ⟨68, Temperature.Fahrenheit⟩).2 (by decide)).1

/-- A unit whose conversions go through the reciprocal fuel-efficiency
override. -/
def reciprocalUnit (u : GoUnit) : Bool :=
  u.fuelMethods && u.symbol == l100Symbol

/-- The base-unit convention of the data model: the unit flagged as base
has coefficient 1 and offset 0 (every predefined unit satisfies this). -/
def wellFormed (u : GoUnit) : Prop :=
  u.isBase = true → u.coefficient = 1 ∧ u.offset = 0

instance (u : GoUnit) : Decidable (wellFormed u) := by
  unfold wellFormed
  infer_instance

theorem convertToBaseUnit_affine (u : GoUnit) (v : ℚ)
    (hr : reciprocalUnit u = false) (hw : wellFormed u) :
    convertToBaseUnit u v = .ok (v * u.coefficient + u.offset) := by
  have hr' : ¬(u.fuelMethods = true ∧ u.symbol = l100Symbol) := by
    intro hc
    simp [reciprocalUnit, hc.1, hc.2] at hr
  unfold convertToBaseUnit baseConvertToBaseUnit
  rw [if_neg hr']
  by_cases hb : u.isBase = true
  · obtain ⟨hc, ho⟩ := hw hb
    rw [if_pos hb, hc, ho]
    norm_num
  · rw [if_neg hb]
    by_cases ho : u.offset ≠ 0
    · rw [if_pos ho]
    · rw [if_neg ho]
      push_neg at ho
      rw [ho]
      norm_num

theorem convertFromBaseUnit_affine (u : GoUnit) (v : ℚ)
    (hr : reciprocalUnit u = false) (hw : wellFormed u)
    (hc : u.coefficient ≠ 0) :
    convertFromBaseUnit u v = .ok ((v - u.offset) / u.coefficient) := by
  have hr' : ¬(u.fuelMethods = true ∧ u.symbol = l100Symbol) := by
    intro hcon
    simp [reciprocalUnit, hcon.1, hcon.2] at hr
  unfold convertFromBaseUnit baseConvertFromBaseUnit
  rw [if_neg hr']
  by_cases hb : u.isBase = true
  · obtain ⟨hc1, ho⟩ := hw hb
    rw [if_pos hb, hc1, ho]
    norm_num
  · rw [if_neg hb]
    by_cases ho : u.offset ≠ 0
    · rw [if_pos ho]
    · rw [if_neg ho]
      push_neg at ho
      rw [ho]
      norm_num

/-- C4 (amended): `Add` always carries the left operand's unit; and for
two quantities of the same dimension whose units use the default affine
conversion (not the reciprocal fuel override), satisfy the base-unit
convention, have nonzero coefficients and equal offsets — and where
symbol-equality implies unit identity, as holds for the predefined
tables — `a.Add(b)` and `b.Add(a)` are `Equal`. -/
theorem C4_add_commutes_up_to_equal : ∀ a b : GoQuantity,
    (∀ s, Quantity.add a b = .ok s → s.unit = a.unit) ∧
    (a.unit.dimension = b.unit.dimension →
     reciprocalUnit a.unit = false → reciprocalUnit b.unit = false →
     wellFormed a.unit → wellFormed b.unit →
     a.unit.coefficient ≠ 0 → b.unit.coefficient ≠ 0 →
     a.unit.offset = b.unit.offset →
     (a.unit.symbol = b.unit.symbol → a.unit = b.unit) →
     ∃ s t, Quantity.add a b = .ok s ∧ Quantity.add b a = .ok t ∧
       s.unit = a.unit ∧ t.unit = b.unit ∧
       Quantity.equal s t = .ok true) := by
  intro a b
  constructor
  · intro s hs
    unfold Quantity.add at hs
    by_cases hdim : a.unit.dimension ≠ b.unit.dimension
    · rw [if_pos hdim] at hs
      exact Except.noConfusion hs
    · rw [if_neg hdim] at hs
      rcases hc : Quantity.convertTo b a.unit with e | oc <;>
        rw [hc] at hs <;> dsimp only at hs
      · exact Except.noConfusion hs
      · cases hs
        rfl
  · intro hd hra hrb hwa hwb hca hcb hoff hcoh
    by_cases hg : goEquals a.unit b.unit = true
    · have huv : a.unit = b.unit := hcoh (goEquals_iff.mp hg).2
      have hg1 : goEquals b.unit a.unit = true := by
        rw [← huv]
        simp [goEquals]
      have h1 : Quantity.add a b = .ok ⟨a.value + b.value, a.unit⟩ := by
        unfold Quantity.add Quantity.convertTo
        rw [if_neg (by simp [hd]), if_pos hg1]
      have h2 : Quantity.add b a = .ok ⟨b.value + a.value, b.unit⟩ := by
        unfold Quantity.add Quantity.convertTo
        rw [if_neg (by simp [hd]), if_pos hg]
      refine ⟨_, _, h1, h2, rfl, rfl, ?_⟩
      unfold Quantity.equal
      rw [if_neg (by simp [huv])]
      rw [convertToBaseUnit_affine a.unit (a.value + b.value) hra hwa]
      dsimp only
      rw [show (⟨b.value + a.value, b.unit⟩ : GoQuantity).unit = a.unit
        from by rw [← huv]]
      rw [convertToBaseUnit_affine a.unit (b.value + a.value) hra hwa]
      dsimp only
      simp only [Except.ok.injEq, decide_eq_true_eq]
      have hz : (a.value + b.value) * a.unit.coefficient + a.unit.offset -
          ((b.value + a.value) * a.unit.coefficient + a.unit.offset) = 0 := by
        ring
      rw [hz, abs_zero]
      norm_num
    · have hg1 : goEquals b.unit a.unit ≠ true := fun hc => by
        have h := goEquals_iff.mp hc
        exact hg (goEquals_iff.mpr ⟨h.1.symm, h.2.symm⟩)
      have hcv1 : Quantity.convertTo b a.unit =
          .ok ⟨((b.value * b.unit.coefficient + b.unit.offset) -
            a.unit.offset) / a.unit.coefficient, a.unit⟩ := by
        unfold Quantity.convertTo
        rw [if_neg hg1, if_neg (by simp [hd])]
        rw [convertToBaseUnit_affine b.unit b.value hrb hwb]
        dsimp only
        rw [convertFromBaseUnit_affine a.unit _ hra hwa hca]
      have hcv2 : Quantity.convertTo a b.unit =
          .ok ⟨((a.value * a.unit.coefficient + a.unit.offset) -
            b.unit.offset) / b.unit.coefficient, b.unit⟩ := by
        unfold Quantity.convertTo
        rw [if_neg hg, if_neg (by simp [hd])]
        rw [convertToBaseUnit_affine a.unit a.value hra hwa]
        dsimp only
        rw [convertFromBaseUnit_affine b.unit _ hrb hwb hcb]
      have h1 : Quantity.add a b = .ok
          ⟨a.value + ((b.value * b.unit.coefficient + b.unit.offset) -
            a.unit.offset) / a.unit.coefficient, a.unit⟩ := by
        unfold Quantity.add
        rw [if_neg (by simp [hd]), hcv1]
      have h2 : Quantity.add b a = .ok
          ⟨b.value + ((a.value * a.unit.coefficient + a.unit.offset) -
            b.unit.offset) / b.unit.coefficient, b.unit⟩ := by
        unfold Quantity.add
        rw [if_neg (by simp [hd]), hcv2]
      refine ⟨_, _, h1, h2, rfl, rfl, ?_⟩
      unfold Quantity.equal
      rw [if_neg (by simp [hd])]
      rw [convertToBaseUnit_affine a.unit _ hra hwa]
      dsimp only
      rw [convertToBaseUnit_affine b.unit _ hrb hwb]
      dsimp only
      simp only [Except.ok.injEq, decide_eq_true_eq]
      have hz : (a.value + ((b.value * b.unit.coefficient + b.unit.offset) -
            a.unit.offset) / a.unit.coefficient) * a.unit.coefficient +
            a.unit.offset -
          ((b.value + ((a.value * a.unit.coefficient + a.unit.offset) -
            b.unit.offset) / b.unit.coefficient) * b.unit.coefficient +
            b.unit.offset) = 0 := by
        rw [hoff]
        field_simp
        ring
      rw [hz, abs_zero]
      norm_num

/-- C4 counterexample: 0 °C and 0 K have the same dimension, yet
`a.Add(b)` is −273.15 °C while `b.Add(a)` is 273.15 K, and the two sums
are not `Equal` (base values −273.15 vs 0). -/
theorem C4_counterexample :
    Quantity.add ⟨0, Temperature.Celsius⟩ ⟨0, Temperature.Kelvin⟩ =
      .ok ⟨-273.15, Temperature.Celsius⟩ ∧
    Quantity.add ⟨0, Temperature.Kelvin⟩ ⟨0, Temperature.Celsius⟩ =
      .ok ⟨273.15, Temperature.Kelvin⟩ ∧
    Quantity.equal ⟨-273.15, Temperature.Celsius⟩
      ⟨273.15, Temperature.Kelvin⟩ = .ok false := by
  refine ⟨?_, ?_, ?_⟩
  · show Except.ok (GoQuantity.mk ((0 : ℚ) + baseConvertFromBaseUnit
      Temperature.Celsius (baseConvertToBaseUnit Temperature.Kelvin 0))
      Temperature.Celsius) = _
    norm_num [baseConvertFromBaseUnit, baseConvertToBaseUnit,
      Temperature.Celsius, Temperature.Kelvin]
  · show Except.ok (GoQuantity.mk ((0 : ℚ) + baseConvertFromBaseUnit
      Temperature.Kelvin (baseConvertToBaseUnit Temperature.Celsius 0))
      Temperature.Kelvin) = _
    norm_num [baseConvertFromBaseUnit, baseConvertToBaseUnit,
      Temperature.Celsius, Temperature.Kelvin]
  · show Except.ok (decide (|baseConvertToBaseUnit Temperature.Celsius
      (-273.15) - baseConvertToBaseUnit Temperature.Kelvin 273.15| <
      1 / 1000000000)) = _
    simp only [Except.ok.injEq, decide_eq_false_iff_not]
    rw [show baseConvertToBaseUnit Temperature.Celsius (-273.15) -
        baseConvertToBaseUnit Temperature.Kelvin 273.15 = -273.15 from by
      norm_num [baseConvertToBaseUnit, Temperature.Celsius, Temperature.Kelvin]]
    rw [abs_neg, abs_of_nonneg (by norm_num)]
    norm_num

/-- C4 witness: 1 m plus 2 km and 2 km plus 1 m are Equal (both are
2001 m in the base unit) while carrying different display units. -/
theorem C4_witness :
    ∃ s t, Quantity.add ⟨1, Length.Meter⟩ ⟨2, Length.Kilometer⟩ = .ok s ∧
      Quantity.add ⟨2, Length.Kilometer⟩ ⟨1, Length.Meter⟩ = .ok t ∧
      s.unit = Length.Meter ∧ t.unit = Length.Kilometer ∧
      Quantity.equal s t = .ok true :=
  (C4_add_commutes_up_to_equal ⟨1, Length.Meter⟩ ⟨2, Length.Kilometer⟩).2
    (by decide) (by decide) (by decide) (by decide) (by decide)
    (by norm_num [Length.Meter]) (by norm_num [Length.Kilometer])
    (by decide) (by decide)

/-- C10 counterexample to "for every other predefined unit these
operations are total": converting a zero km/L quantity into L/100km
panics, because `ConvertFromBaseUnit` receives the base value 0. -/
theorem C10_counterexample :
    Quantity.convertTo ⟨0, FuelEfficiency.KilometersPerLiter⟩
      FuelEfficiency.LitersPer100Kilometers = .error .fuelZero := by
  decide

/-- C10 (amended): `NewFuelEfficiency(0, L/100km)` panics; the L/100km
conversion methods panic at 0; every operation that base-normalizes a
zero L/100km quantity panics (`Equal` against any same-dimension
quantity, `ConvertTo` to a non-equal unit, and `Add`/`Subtract` with the
zero L/100km quantity as the converted right operand); and for the other
predefined fuel-efficiency units (km/L, mpg) these operations are total,
except that `ConvertTo` into L/100km panics when the base-normalized
value is 0. -/
theorem C10_fuel_zero_panics :
    NewFuelEfficiency 0 FuelEfficiency.LitersPer100Kilometers =
      .error .fuelZero ∧
    convertToBaseUnit FuelEfficiency.LitersPer100Kilometers 0 =
      .error .fuelZero ∧
    convertFromBaseUnit FuelEfficiency.LitersPer100Kilometers 0 =
      .error .fuelZero ∧
    (∀ b : GoQuantity, b.unit.dimension = "fuel_efficiency".data →
      Quantity.equal ⟨0, FuelEfficiency.LitersPer100Kilometers⟩ b =
        .error .fuelZero) ∧
    (∀ u : GoUnit, u.dimension = "fuel_efficiency".data →
      goEquals FuelEfficiency.LitersPer100Kilometers u = false →
      Quantity.convertTo ⟨0, FuelEfficiency.LitersPer100Kilometers⟩ u =
        .error .fuelZero) ∧
    (∀ b : GoQuantity, b.unit.dimension = "fuel_efficiency".data →
      goEquals FuelEfficiency.LitersPer100Kilometers b.unit = false →
      Quantity.add b ⟨0, FuelEfficiency.LitersPer100Kilometers⟩ =
        .error .fuelZero ∧
      Quantity.sub b ⟨0, FuelEfficiency.LitersPer100Kilometers⟩ =
        .error .fuelZero) ∧
    (∀ (v w : ℚ) (u1 u2 : GoUnit),
      (u1 = FuelEfficiency.KilometersPerLiter ∨
        u1 = FuelEfficiency.MilesPerGallon) →
      (u2 = FuelEfficiency.KilometersPerLiter ∨
        u2 = FuelEfficiency.MilesPerGallon) →
      (∃ r, Quantity.equal ⟨v, u1⟩ ⟨w, u2⟩ = .ok r) ∧
      (∃ s, Quantity.add ⟨v, u1⟩ ⟨w, u2⟩ = .ok s) ∧
      (∃ s, Quantity.sub ⟨v, u1⟩ ⟨w, u2⟩ = .ok s) ∧
      (∃ s, Quantity.convertTo ⟨v, u1⟩ u2 = .ok s) ∧
      (v ≠ 0 → ∃ s, Quantity.convertTo ⟨v, u1⟩
        FuelEfficiency.LitersPer100Kilometers = .ok s)) := by
  have htb0 : convertToBaseUnit FuelEfficiency.LitersPer100Kilometers 0 =
      .error .fuelZero := by decide
  refine ⟨by decide, htb0, by decide, ?_, ?_, ?_, ?_⟩
  · intro b hb
    unfold Quantity.equal
    rw [if_neg (by simp [FuelEfficiency.LitersPer100Kilometers, hb]), htb0]
  · intro u hu hne
    unfold Quantity.convertTo
    rw [if_neg (by simp [hne]),
      if_neg (by simp [FuelEfficiency.LitersPer100Kilometers, hu]), htb0]
  · intro b hb hne
    have hcv : Quantity.convertTo ⟨0, FuelEfficiency.LitersPer100Kilometers⟩
        b.unit = .error .fuelZero := by
      unfold Quantity.convertTo
      rw [if_neg (by simp [hne]),
        if_neg (by simp [FuelEfficiency.LitersPer100Kilometers, hb]), htb0]
    constructor
    · unfold Quantity.add
      rw [if_neg (by simp [FuelEfficiency.LitersPer100Kilometers, hb]), hcv]
    · unfold Quantity.sub
      rw [if_neg (by simp [FuelEfficiency.LitersPer100Kilometers, hb]), hcv]
  · intro v w u1 u2 h1 h2
    have hgA : ¬(goEquals FuelEfficiency.KilometersPerLiter
        FuelEfficiency.LitersPer100Kilometers = true) := by decide
    have hgB : ¬(goEquals FuelEfficiency.MilesPerGallon
        FuelEfficiency.LitersPer100Kilometers = true) := by decide
    have hdA : ¬(FuelEfficiency.KilometersPerLiter.dimension ≠
        FuelEfficiency.LitersPer100Kilometers.dimension) := by decide
    have hdB : ¬(FuelEfficiency.MilesPerGallon.dimension ≠
        FuelEfficiency.LitersPer100Kilometers.dimension) := by decide
    have hmpg : ∀ x : ℚ, x ≠ 0 → x * (0.425144 : ℚ) ≠ 0 := fun x hx =>
      mul_ne_zero hx (by norm_num)
    rcases h1 with h1 | h1 <;> rcases h2 with h2 | h2 <;> subst h1 <;>
      subst h2 <;>
      refine ⟨⟨_, rfl⟩, ⟨_, rfl⟩, ⟨_, rfl⟩, ⟨_, rfl⟩, ?_⟩ <;> intro hv
    · have hfb : convertFromBaseUnit FuelEfficiency.LitersPer100Kilometers v =
          .ok (100 / v) := by
        unfold convertFromBaseUnit
        rw [if_pos ⟨rfl, rfl⟩, if_neg hv]
      refine ⟨⟨100 / v, FuelEfficiency.LitersPer100Kilometers⟩, ?_⟩
      unfold Quantity.convertTo
      dsimp only
      rw [if_neg hgA, if_neg hdA,
        show convertToBaseUnit FuelEfficiency.KilometersPerLiter v = .ok v
          from rfl]
      dsimp only
      rw [hfb]
    · have hfb : convertFromBaseUnit FuelEfficiency.LitersPer100Kilometers v =
          .ok (100 / v) := by
        unfold convertFromBaseUnit
        rw [if_pos ⟨rfl, rfl⟩, if_neg hv]
      refine ⟨⟨100 / v, FuelEfficiency.LitersPer100Kilometers⟩, ?_⟩
      unfold Quantity.convertTo
      dsimp only
      rw [if_neg hgA, if_neg hdA,
        show convertToBaseUnit FuelEfficiency.KilometersPerLiter v = .ok v
          from rfl]
      dsimp only
      rw [hfb]
    · have hfb : convertFromBaseUnit FuelEfficiency.LitersPer100Kilometers
          (v * (0.425144 : ℚ)) = .ok (100 / (v * (0.425144 : ℚ))) := by
        unfold convertFromBaseUnit
        rw [if_pos ⟨rfl, rfl⟩, if_neg (hmpg v hv)]
      refine ⟨⟨100 / (v * (0.425144 : ℚ)),
        FuelEfficiency.LitersPer100Kilometers⟩, ?_⟩
      unfold Quantity.convertTo
      dsimp only
      rw [if_neg hgB, if_neg hdB,
        show convertToBaseUnit FuelEfficiency.MilesPerGallon v =
          .ok (v * (0.425144 : ℚ)) from rfl]
      dsimp only
      rw [hfb]
    · have hfb : convertFromBaseUnit FuelEfficiency.LitersPer100Kilometers
          (v * (0.425144 : ℚ)) = .ok (100 / (v * (0.425144 : ℚ))) := by
        unfold convertFromBaseUnit
        rw [if_pos ⟨rfl, rfl⟩, if_neg (hmpg v hv)]
      refine ⟨⟨100 / (v * (0.425144 : ℚ)),
        FuelEfficiency.LitersPer100Kilometers⟩, ?_⟩
      unfold Quantity.convertTo
      dsimp only
      rw [if_neg hgB, if_neg hdB,
        show convertToBaseUnit FuelEfficiency.MilesPerGallon v =
          .ok (v * (0.425144 : ℚ)) from rfl]
      dsimp only
      rw [hfb]

/-- C10 witness: concrete non-vacuous instances of the hypotheses — the
0 L/100km quantity panics under `Equal` against 5 mpg, and 3 km/L plus
0 L/100km (right operand) panics. -/
theorem C10_witness :
    Quantity.equal ⟨0, FuelEfficiency.LitersPer100Kilometers⟩
      ⟨5, FuelEfficiency.MilesPerGallon⟩ = .error .fuelZero ∧
    Quantity.add ⟨3, FuelEfficiency.KilometersPerLiter⟩
      ⟨0, FuelEfficiency.LitersPer100Kilometers⟩ = .error .fuelZero := by
  constructor
  · exact C10_fuel_zero_panics.2.2.2.1 ⟨5, FuelEfficiency.MilesPerGallon⟩
      (by decide)
  · exact (C10_fuel_zero_panics.2.2.2.2.2.1
      ⟨3, FuelEfficiency.KilometersPerLiter⟩ (by decide) (by decide)).1

/-- C7: `Equal` returns `false` (it does not fail) whenever the two units'
dimensions differ, and with equal dimensions — whenever both operands
base-normalize — it returns `true` exactly when the absolute difference of
the base-normalized values is below the tolerance `1e-9`. -/
theorem C7_equal_predicate : ∀ m other : GoQuantity,
    (m.unit.dimension ≠ other.unit.dimension →
      Quantity.equal m other = .ok false) ∧
    (m.unit.dimension = other.unit.dimension →
      ∀ a b : ℚ, convertToBaseUnit m.unit m.value = .ok a →
        convertToBaseUnit other.unit other.value = .ok b →
        Quantity.equal m other = .ok (decide (|a - b| < 1 / 1000000000))) := by
  intro m other
  constructor
  · intro h
    unfold Quantity.equal
    rw [if_pos h]
  · intro h a b ha hb
    unfold Quantity.equal
    rw [if_neg (by simp [h]), ha, hb]

/-- C7 witness: 0 °C and 0 K have the same dimension, base-normalize to 0
and −273.15, and are not `Equal`. -/
theorem C7_witness :
    Quantity.equal ⟨0, Temperature.Celsius⟩ ⟨0, Temperature.Kelvin⟩ =
      .ok false := by
  have hk : convertToBaseUnit Temperature.Kelvin 0 = .ok (-273.15) := by
    show Except.ok (baseConvertToBaseUnit Temperature.Kelvin 0) = _
    norm_num [baseConvertToBaseUnit, Temperature.Kelvin]
  have h := (C7_equal_predicate ⟨0, Temperature.Celsius⟩
    ⟨0, Temperature.Kelvin⟩).2 (by decide) 0 (-273.15) (by rfl) hk
  rw [h]
  have hlt : ¬(|(0 : ℚ) - (-273.15)| < 1 / 1000000000) := by
    rw [show ((0 : ℚ) - (-273.15)) = 273.15 by norm_num,
      abs_of_nonneg (by norm_num)]
    norm_num
  simp only [Except.ok.injEq, decide_eq_false_iff_not]
  exact hlt

end UnitSys
